import Mathlib

/-!
Verification of the DockCI job pipeline specification against a shallow
embedding of the Python source of the repository.

Each definition in this file is translated from a named function of the
repository (`dockci/util.py`, `dockci/models/job.py`,
`dockci/models/job_meta/stages_main.py`, `dockci/models/build.py`,
`dockci/models/blob.py`).  Machine-level concerns (database sessions, log
handles, the Docker daemon) are modelled as explicit data: the Docker daemon
as a list of issued calls, raised Python exceptions as `Except.error`, and
persisted state as explicit record fields.
-/

set_option maxHeartbeats 1000000

namespace DockCI

/-! ## `dockci/util.py`: `is_semantic` -/

/-- Consume one or more ASCII decimal digits from the front of `cs`
(the `\d+` regex atom); `none` when `cs` does not start with a digit. -/
def digits1 (cs : List Char) : Option (List Char) :=
  match cs with
  | c :: rest => if c.isDigit then some (rest.dropWhile Char.isDigit) else none
  | [] => none

/-- `dockci.util.is_semantic`: whether `re.match` of the anchored regex
`^v\d+\.\d+\.\d+$` against `version` succeeds. -/
def is_semantic (version : String) : Bool :=
  match version.data with
  | 'v' :: rest =>
    match digits1 rest with
    | some ('.' :: r2) =>
      match digits1 r2 with
      | some ('.' :: r3) =>
        match digits1 r3 with
        | some [] => true
        | _ => false
      | _ => false
    | _ => false
  | _ => false

example : is_semantic "v1.2.3" = true := by decide
example : is_semantic "v10.22.333" = true := by decide
example : is_semantic "latest-main" = false := by decide
example : is_semantic "v1.2" = false := by decide
example : is_semantic "1.2.3" = false := by decide
example : is_semantic "v1.2.3-rc1" = false := by decide

/-! ## `dockci/models/job.py`: `Job.slug_from_id` / `Job.id_from_slug` -/

/-- Lowercase hex digit character for a value `d < 16`, as produced by
the Python builtin `hex` ( '0' is code 48, 'a' is code 97). -/
def hexChar (d : Nat) : Char :=
  if d < 10 then Char.ofNat (48 + d) else Char.ofNat (87 + d)

/-- Fuel-driven core of `hex(n)[2:]`: hex digit characters of `n`, most
significant first.  The fuel is only a structural-recursion bound; every
call in this file supplies fuel `> n`. -/
def hexCharsGo : Nat → Nat → List Char
  | 0, _ => []
  | fuel + 1, n =>
    if n < 16 then [hexChar n]
    else hexCharsGo fuel (n / 16) ++ [hexChar (n % 16)]

/-- Hex digit characters of `n` (`hex(n)[2:]` for non-negative `n`). -/
def hexChars (n : Nat) : List Char := hexCharsGo (n + 1) n

/-- `Job.slug_from_id`: format `hex(id_)[2:]` with the format spec 0>6 —
the lowercase hex encoding of the id, left-padded with the character '0'
to a minimum width of 6. -/
def slug_from_id (id_ : Nat) : String :=
  let s := hexChars id_
  ⟨List.replicate (6 - s.length) '0' ++ s⟩

/-- Is `c` a hex digit accepted by the Python builtin `int(_, 16)`. -/
def isHexChar (c : Char) : Bool :=
  c.isDigit || ('a' ≤ c && c ≤ 'f') || ('A' ≤ c && c ≤ 'F')

/-- Numeric value of a hex digit character. -/
def hexVal (c : Char) : Nat :=
  if c.isDigit then c.toNat - 48
  else if 'a' ≤ c && c ≤ 'f' then c.toNat - 87
  else c.toNat - 55

/-- `Job.id_from_slug`: `int(slug, 16)`, as a fallible parse (`int` raises
`ValueError` on a string that is not entirely hex digits). -/
def id_from_slug (slug : String) : Option Nat :=
  if slug.data ≠ [] && slug.data.all isHexChar then
    some (slug.data.foldl (fun a c => 16 * a + hexVal c) 0)
  else none

example : slug_from_id 1 = "000001" := by decide
example : slug_from_id 255 = "0000ff" := by decide
example : slug_from_id 16777215 = "ffffff" := by decide
example : slug_from_id 16777216 = "1000000" := by decide
example : id_from_slug "000001" = some 1 := by decide
example : id_from_slug "00zz01" = none := by decide

/-! ## `dockci/models/job.py`: `Job.queue` -/

/-- Errors raised by model operations (`dockci/exceptions.py`). -/
inductive PipelineError where
  | alreadyRun
deriving DecidableEq

/-- The queue-relevant persisted state of a `Job` row. -/
structure JobRecord where
  id : Nat
  start_ts : Option Nat
deriving DecidableEq

/-- `Job.queue`: raise `AlreadyRunError` when `start_ts` is set (a stored
datetime is always truthy), otherwise put the job id on the worker queue.
The returned pair is the (unchanged) job record and the new queue; the
error case returns before any state is touched. -/
def queue (job : JobRecord) (worker_queue : List Nat) :
    Except PipelineError (JobRecord × List Nat) :=
  match job.start_ts with
  | some _ => .error .alreadyRun
  | none => .ok (job, worker_queue ++ [job.id])

/-! ## `dockci/models/job.py`: `STATE_MAP` and `Job.state_data_for` -/

/-- The `github` entry of `STATE_MAP`, with the `None` fallback key held
separately as the second component below. -/
def githubStateMap : List (String × String) :=
  [("queued", "pending"), ("running", "pending"), ("success", "success"),
   ("fail", "failure"), ("broken", "error")]

/-- The `gitlab` entry of `STATE_MAP`. -/
def gitlabStateMap : List (String × String) :=
  [("queued", "pending"), ("running", "running"), ("success", "success"),
   ("fail", "failed"), ("broken", "canceled")]

/-- `STATE_MAP`: per-service state table plus the `None`-key fallback. -/
def STATE_MAP : List (String × (List (String × String) × String)) :=
  [("github", (githubStateMap, "error")),
   ("gitlab", (gitlabStateMap, "canceled"))]

/-- The message switch at the end of `Job.state_data_for`. -/
def state_msg_for (state : String) : Option String :=
  if state = "running" then some "is in progress"
  else if state = "success" then some "completed successfully"
  else if state = "fail" then some "completed with failing tests"
  else if state = "broken" then some "failed to complete due to an error"
  else none

/-- `Job.state_data_for` with an explicit (already resolved) state string:
look the service up in `STATE_MAP` (unknown service keeps the state as is),
then the state in the service map (unknown state falls back to the `None`
key and an unknown-state message). -/
def state_data_for (service state : String) : String × Option String :=
  match STATE_MAP.lookup service with
  | none =>
      (state, (state_msg_for state).map (fun m => "The DockCI job " ++ m))
  | some (serviceMap, fallback) =>
    match serviceMap.lookup state with
    | some mapped =>
        (mapped, (state_msg_for state).map (fun m => "The DockCI job " ++ m))
    | none =>
        (fallback,
         some ("The DockCI job is in an unknown state: \x27" ++ state ++ "\x27"))

/-! ## `dockci/models/job_meta/stages_main.py`: `BuildStage.runnable_docker` -/

/-- A Docker image as returned by the `images` daemon call. -/
structure DockerImage where
  imageId : String
  repoTags : List String
deriving DecidableEq

/-- Docker daemon calls issued by the build stage, in order.  Only the
fields the build stage decides on are modelled (the build call also passes
the workdir path, dockerfile, `rm=True` and `stream=True` verbatim). -/
inductive DockerCall where
  | removeImage (imageId : String)
  | build (tag : String) (nocache : Bool)
deriving DecidableEq

/-- `BuildStage.runnable_docker`: with `tag = job.docker_full_name`, when
the job has a git tag, scan the daemon images for one whose `RepoTags`
holds the full name (first match, as the for/break loop); a semantic git
tag then raises `AlreadyBuiltError`, a non-semantic one issues a
remove-image call for the existing image (API errors from the removal are
swallowed) before the build call.  The cache is disabled exactly when a
git tag is present.  The error value is the `AlreadyBuiltError` message. -/
def runnable_docker (jobTag : Option String) (dockerFullName projectSlug : String)
    (images : List DockerImage) : Except String (List DockerCall) :=
  match jobTag with
  | some t =>
    match images.find? (fun img => img.repoTags.contains dockerFullName) with
    | some existing =>
      if is_semantic t then
        .error ("Version " ++ t ++ " of " ++ projectSlug ++ " already built")
      else
        .ok [DockerCall.removeImage existing.imageId,
             DockerCall.build dockerFullName true]
    | none => .ok [DockerCall.build dockerFullName true]
  | none => .ok [DockerCall.build dockerFullName false]

/-! ## Stage runnable outcomes -/

/-- Outcome of invoking the runnable of a stage: an integer exit status,
or a raised Python exception. -/
inductive Beh where
  | ok (rc : Int)
  | exc
deriving DecidableEq

/-! ## `dockci/models/build.py`: `Build._stage` -/

/-- The stage-bookkeeping state of a `Build`: the in-memory
`build_stage_slugs` list and its last persisted copy (`self.save()`). -/
structure BuildSlugState where
  build_stage_slugs : List String
  saved_slugs : List String
deriving DecidableEq

/-- `Build._stage`: append the stage slug to `build_stage_slugs`, persist
(`self.save()`), and only then run the stage runnable.  The second
component is the returncode of the stage: `none` when the runnable raised
(so no outcome was ever recorded for the stage). -/
def build_stage (st : BuildSlugState) (slug : String) (runnable : Beh) :
    BuildSlugState × Option Int :=
  let slugs := st.build_stage_slugs ++ [slug]
  let st := BuildSlugState.mk slugs slugs
  match runnable with
  | .exc => (st, none)
  | .ok rc => (st, some rc)

/-! ## `dockci/util.py`: `is_valid_github` -/

/-- Python `str.split` on the separator character = : every occurrence
splits, and the result list always has (number of separators + 1) parts. -/
def splitOnEqChar : List Char → List (List Char)
  | [] => [[]]
  | c :: cs =>
    if c = '=' then [] :: splitOnEqChar cs
    else
      match splitOnEqChar cs with
      | h :: t => (c :: h) :: t
      | [] => [[c]]

/-- Python errors the webhook validator can raise. -/
inductive PyError where
  | valueError
deriving DecidableEq

/-- `dockci.util.is_valid_github`: reject when the X-Hub-Signature header
is absent; split the header value on = (unpacking into exactly two parts —
any other arity raises `ValueError`); reject when the first part is not
sha1 case-insensitively; otherwise compare the second part against the
HMAC-SHA1 hex digest of the request body keyed by the project secret,
which is passed in as `computedSignature` (the `hmac`/`hashlib` library
call is external to the repository). -/
def is_valid_github (headers : List (String × String))
    (computedSignature : String) : Except PyError Bool :=
  match headers.lookup "X-Hub-Signature" with
  | none => .ok false
  | some v =>
    match splitOnEqChar v.data with
    | [hashType, sigPart] =>
      if hashType.map Char.toLower = "sha1".data then
        .ok (decide (sigPart = computedSignature.data))
      else
        .ok false
    | _ => .error .valueError

/-! ## `dockci/models/blob.py`: `FilesystemBlob.from_files` -/

/-- `FilesystemBlob.from_files`, abstracted over the `hashlib.sha1`
library calls: `sha1` maps the full byte content of a file to its 20-byte
digest read as a number (feeding a file to the hash in 4000-byte chunks is
the same as hashing the whole content, and Python compares the equal-length
digest byte strings exactly in their big-endian numeric order), and
`finalHexdigest` maps the sorted digest sequence fed into `all_hash` to
its hex digest.  Files are (path, content) pairs; only the content is ever
read, and the per-file digests are sorted before the final hash. -/
def from_files_etag (sha1 : List Nat → Nat) (finalHexdigest : List Nat → String)
    (file_paths : List (String × List Nat)) : String :=
  let digests := file_paths.map (fun fp => sha1 fp.2)
  finalHexdigest digests.mergeSort

/-! ## `dockci/models/job.py`: `Job._run_now`

The orchestrator sequences the stage objects built at the top of
`_run_now`.  Stage internals are abstracted to their runnable outcome
(`Beh`); `JobStage.run` itself is modelled from the spec (the file
`dockci/models/job_meta/stages.py` is not part of the sources): §4.1 — the
slug is appended to the stage-slug sequence of the job before the runnable
is invoked, the stage yields an integer status where the caller compares
against an expected code (an expected code of `None` ignores the status:
"Some callers ignore the code ... failure there is advisory only"), and an
exception raised inside the runnable propagates to the orchestrator. -/

/-- Observable state of one `_run_now` call: the ordered `JobStageTmp`
slug sequence (appended at stage start), the slugs whose runnable returned
without raising (appended at stage completion — model instrumentation for
"stage ran to completion"), the persisted `result` column, and whether
`complete_ts` was set. -/
structure RunState where
  started : List String
  completed : List String
  result : Option String
  complete_ts : Bool
deriving DecidableEq

/-- Run one stage: record the slug, then evaluate the runnable; compare
its status against `expected` (`none` accepts any status).  `Except.error`
is a raised exception propagating out of `run`. -/
def runStageS (st : RunState) (slug : String) (expected : Option Int)
    (b : Beh) : RunState × Except Unit Bool :=
  let st1 : RunState := { st with started := st.started ++ [slug] }
  match b with
  | .exc => (st1, .error ())
  | .ok rc =>
    ({ st1 with completed := st1.completed ++ [slug] },
     .ok (match expected with
          | none => true
          | some e => decide (rc = e)))

/-- One element of a lazily evaluated `all(...)` chain in `_run_now`.
`skip = true` models the branches that yield `True` without running the
stage at all (`tag_stage` when the job already has a tag,
`push_prep_stage` when the job is not a push candidate). -/
structure PrepItem where
  skip : Bool
  slug : String
  expected : Option Int
  beh : Beh
deriving DecidableEq

/-- `all(generator)` over stage thunks: evaluate in order, stop at the
first falsy value; an exception propagates immediately. -/
def runChain (st : RunState) : List PrepItem → RunState × Except Unit Bool
  | [] => (st, .ok true)
  | item :: rest =>
    if item.skip then runChain st rest
    else
      match runStageS st item.slug item.expected item.beh with
      | (st2, .error e) => (st2, .error e)
      | (st2, .ok true) => runChain st2 rest
      | (st2, .ok false) => (st2, .ok false)

/-- Inputs to one `_run_now` call: the job/project flags the control flow
branches on, and the runnable outcome of every stage object.  Utility
stages are a per-job list (slug suffixes are modelled by position). -/
structure JobInput where
  has_tag : Bool
  push_candidate : Bool
  github_repo : Bool
  workdir : Beh
  git_info : Beh
  external_status_start : Beh
  git_changes : Beh
  git_mtime : Beh
  git_tag : Beh
  push_prep : Beh
  docker_login : Beh
  utilities : List Beh
  provision : Beh
  build : Beh
  test : Beh
  push : Beh
  fetch : Beh
  external_status_complete : Beh
  cleanup : Beh
deriving DecidableEq

/-- The utility stages as chain items, slugged by position (the utility
slug-suffix scheme over declared names, modelled positionally). -/
def utilItems : Nat → List Beh → List PrepItem
  | _, [] => []
  | i, b :: rest =>
    ⟨false, "utility_" ++ toString i, some 0, b⟩ :: utilItems (i + 1) rest

/-- The `prepare` generator of `_run_now`: git_changes, git_mtime (status
ignored), tag_stage (skipped when the job has a tag, status ignored),
push_prep_stage (skipped when not a push candidate, status ignored),
docker_login, the utility stages, docker_provision, docker_build. -/
def prepItems (inp : JobInput) : List PrepItem :=
  [⟨false, "git_changes", some 0, inp.git_changes⟩,
   ⟨false, "git_mtime", none, inp.git_mtime⟩,
   ⟨inp.has_tag, "git_tag", none, inp.git_tag⟩,
   ⟨!inp.push_candidate, "docker_push_prep", none, inp.push_prep⟩,
   ⟨false, "docker_login", some 0, inp.docker_login⟩] ++
  utilItems 0 inp.utilities ++
  [⟨false, "docker_provision", some 0, inp.provision⟩,
   ⟨false, "docker_build", some 0, inp.build⟩]

/-- How the `try` body of `_run_now` ends: a Python `return` with a value,
or an exception escaping to the `except` clause. -/
inductive BodyExit where
  | finished (value : Bool)
  | raised
deriving DecidableEq

/-- The `try` body of `_run_now` (lines 577–663): the git prepare pair,
the external start status (only when the project has a GitHub repo id;
its result is discarded), the prepare chain, test, push, fetch.  Each
failing check writes `result` and returns `False`; the success path writes
`result = success` before fetch runs. -/
def runBody (inp : JobInput) (st : RunState) : RunState × BodyExit :=
  match runChain st
      [⟨false, "git_prepare", some 0, inp.workdir⟩,
       ⟨false, "git_info", some 0, inp.git_info⟩] with
  | (st, .error _) => (st, .raised)
  | (st, .ok false) => ({ st with result := some "broken" }, .finished false)
  | (st, .ok true) =>
    match (if inp.github_repo then
             runStageS st "external_status_start" (some 0) inp.external_status_start
           else (st, .ok true)) with
    | (st, .error _) => (st, .raised)
    | (st, .ok _) =>
      match runChain st (prepItems inp) with
      | (st, .error _) => (st, .raised)
      | (st, .ok false) => ({ st with result := some "broken" }, .finished false)
      | (st, .ok true) =>
        match runStageS st "docker_test" (some 0) inp.test with
        | (st, .error _) => (st, .raised)
        | (st, .ok false) => ({ st with result := some "fail" }, .finished false)
        | (st, .ok true) =>
          match runStageS st "docker_push" (some 0) inp.push with
          | (st, .error _) => (st, .raised)
          | (st, .ok false) => ({ st with result := some "broken" }, .finished false)
          | (st, .ok true) =>
            let st : RunState := { st with result := some "success" }
            match runStageS st "docker_fetch" none inp.fetch with
            | (st, .error _) => (st, .raised)
            | (st, .ok _) => (st, .finished true)

/-- The `except Exception` clause of `_run_now`: force `result = broken`
and synthesize the error pseudo-stage (`_error_stage` records its slug in
the stage sequence). -/
def runExceptWrap (inp : JobInput) (st : RunState) : RunState :=
  match runBody inp st with
  | (st, .finished _) => st
  | (st, .raised) =>
      { st with result := some "broken", started := st.started ++ ["error"] }

/-- The `finally` clause of `_run_now`: run the external complete status
and then cleanup inside one `try`; an exception from either is captured
into the post_error pseudo-stage (and, when the complete-status stage
raised, cleanup is never reached).  `complete_ts` is then set. -/
def runFinallyPart (inp : JobInput) (st : RunState) : RunState :=
  let st2 :=
    match runStageS st "external_status_complete" (some 0)
        inp.external_status_complete with
    | (st, .error _) => { st with started := st.started ++ ["post_error"] }
    | (st, .ok _) =>
      match runStageS st "cleanup" none inp.cleanup with
      | (st, .error _) => { st with started := st.started ++ ["post_error"] }
      | (st, .ok _) => st
  { st2 with complete_ts := true }

/-- `Job._run_now` from a fresh job (no stages recorded, no result). -/
def run_now (inp : JobInput) : RunState :=
  runFinallyPart inp
    (runExceptWrap inp
      { started := [], completed := [], result := none, complete_ts := false })

/-- A baseline input: every stage exits 0, the job is an untagged push
candidate on a GitHub project with one utility. -/
def baseInput : JobInput where
  has_tag := false
  push_candidate := true
  github_repo := true
  workdir := .ok 0
  git_info := .ok 0
  external_status_start := .ok 0
  git_changes := .ok 0
  git_mtime := .ok 0
  git_tag := .ok 0
  push_prep := .ok 0
  docker_login := .ok 0
  utilities := [.ok 0]
  provision := .ok 0
  build := .ok 0
  test := .ok 0
  push := .ok 0
  fetch := .ok 0
  external_status_complete := .ok 0
  cleanup := .ok 0

/-- A job run where every stage succeeds but the external complete-status
stage raises. -/
def statusExcInput : JobInput :=
  { baseInput with external_status_complete := .exc }

/-- A job run where the push-prep stage exits non-zero and every other
stage succeeds. -/
def pushPrepFailInput : JobInput := { baseInput with push_prep := .ok 1 }

example : (run_now baseInput).result = some "success" := by decide
example : (run_now baseInput).started =
    ["git_prepare", "git_info", "external_status_start", "git_changes",
     "git_mtime", "git_tag", "docker_push_prep", "docker_login", "utility_0",
     "docker_provision", "docker_build", "docker_test", "docker_push",
     "docker_fetch", "external_status_complete", "cleanup"] := by decide
example : (run_now { baseInput with test := .ok 1 }).result = some "fail" := by
  decide
example : (run_now { baseInput with push_prep := .ok 1 }).result =
    some "success" := by decide
example : (run_now { baseInput with external_status_complete := .exc }).started =
    (run_now baseInput).started.dropLast ++ ["post_error"] := by decide

/-! Lemmas for the hex round trip. -/

lemma hexVal_hexChar {d : Nat} (h : d < 16) : hexVal (hexChar d) = d := by
  interval_cases d <;> decide

lemma isHexChar_hexChar {d : Nat} (h : d < 16) : isHexChar (hexChar d) = true := by
  interval_cases d <;> decide

/-- Every character that `hexCharsGo` emits is a hex digit. -/
lemma hexCharsGo_all_hex : ∀ fuel n, (hexCharsGo fuel n).all isHexChar = true := by
  intro fuel
  induction fuel with
  | zero => intro n; simp [hexCharsGo]
  | succ fuel ih =>
    intro n
    by_cases h : n < 16
    · simp [hexCharsGo, h, List.all_cons, isHexChar_hexChar h]
    · have h16 : n % 16 < 16 := Nat.mod_lt _ (by decide)
      simp [hexCharsGo, h, List.all_append, ih (n / 16), List.all_cons,
            isHexChar_hexChar h16]

/-- `hexCharsGo` is never empty when fuel is positive. -/
lemma hexCharsGo_ne_nil (fuel n : Nat) : hexCharsGo (fuel + 1) n ≠ [] := by
  by_cases h : n < 16 <;> simp [hexCharsGo, h]

/-- Folding the hex-parse accumulator over a list splits over append. -/
lemma foldl_hex_append (cs ds : List Char) (a : Nat) :
    (cs ++ ds).foldl (fun a c => 16 * a + hexVal c) a =
      ds.foldl (fun a c => 16 * a + hexVal c)
        (cs.foldl (fun a c => 16 * a + hexVal c) a) := by
  simp [List.foldl_append]

/-- Parsing the digits produced by `hexCharsGo` from accumulator `a`
recovers `a * 16 ^ (number of digits) + n`, provided the fuel covers `n`. -/
lemma foldl_hexCharsGo (fuel : Nat) :
    ∀ n a, n < fuel →
      (hexCharsGo fuel n).foldl (fun a c => 16 * a + hexVal c) a =
        a * 16 ^ (hexCharsGo fuel n).length + n := by
  induction fuel with
  | zero => intro n a h; omega
  | succ fuel ih =>
    intro n a h
    by_cases h16 : n < 16
    · simp [hexCharsGo, h16, hexVal_hexChar h16, Nat.mul_comm]
    · have hdiv : n / 16 < fuel := by
        have h1 : n / 16 < n := Nat.div_lt_self (by omega) (by decide)
        omega
      have hm : n % 16 < 16 := Nat.mod_lt _ (by decide)
      simp only [hexCharsGo, if_neg h16]
      rw [foldl_hex_append, ih (n / 16) a hdiv]
      simp only [List.foldl_cons, List.foldl_nil, List.length_append,
                 List.length_singleton]
      rw [hexVal_hexChar hm]
      have : 16 * (a * 16 ^ (hexCharsGo fuel (n / 16)).length + n / 16) + n % 16 =
          a * (16 ^ (hexCharsGo fuel (n / 16)).length * 16) + (16 * (n / 16) + n % 16) := by
        ring
      rw [this, ← pow_succ]
      have hnm : 16 * (n / 16) + n % 16 = n := Nat.div_add_mod n 16
      rw [hnm]

/-- Parsing the hex digits of `n` recovers `n`. -/
lemma foldl_hexChars (n : Nat) :
    (hexChars n).foldl (fun a c => 16 * a + hexVal c) 0 = n := by
  have := foldl_hexCharsGo (n + 1) n 0 (Nat.lt_succ_self n)
  simpa [hexChars] using this

/-- Leading zero-character padding does not change the parsed value. -/
lemma foldl_replicate_zero (k : Nat) (cs : List Char) :
    (List.replicate k '0' ++ cs).foldl (fun a c => 16 * a + hexVal c) 0 =
      cs.foldl (fun a c => 16 * a + hexVal c) 0 := by
  induction k with
  | zero => simp
  | succ k ih => simpa [List.replicate_succ] using ih

/-- When `n < 16 ^ k` (and `k ≥ 1`), the hex encoding of `n` has at most
`k` digits. -/
lemma hexCharsGo_length_le (fuel : Nat) :
    ∀ n k, n < fuel → n < 16 ^ k → 1 ≤ k → (hexCharsGo fuel n).length ≤ k := by
  induction fuel with
  | zero => intro n k h; omega
  | succ fuel ih =>
    intro n k h hk h1
    by_cases h16 : n < 16
    · simp [hexCharsGo, h16]; omega
    · have hk2 : 2 ≤ k := by
        by_contra hc
        have : k = 1 := by omega
        subst this
        simp at hk
        omega
      have hdiv : n / 16 < fuel := by
        have : n / 16 < n := Nat.div_lt_self (by omega) (by decide)
        omega
      have hdivk : n / 16 < 16 ^ (k - 1) := by
        have h16k : n < 16 * 16 ^ (k - 1) := by
          have : 16 * 16 ^ (k - 1) = 16 ^ k := by
            rw [← pow_succ']
            congr 1
            omega
          omega
        exact Nat.div_lt_of_lt_mul h16k
      have := ih (n / 16) (k - 1) hdiv hdivk (by omega)
      simp only [hexCharsGo, if_neg h16, List.length_append, List.length_singleton]
      omega

/-- The raw character list underlying a generated slug. -/
lemma slug_from_id_data (n : Nat) :
    (slug_from_id n).data =
      List.replicate (6 - (hexChars n).length) '0' ++ hexChars n := rfl

/-- Zero padding consists of hex digits. -/
lemma replicate_zero_all_hex (k : Nat) :
    (List.replicate k '0').all isHexChar = true := by
  simp only [List.all_eq_true]
  intro c hc
  rw [List.eq_of_mem_replicate hc]
  decide

/-! ## Claim theorems -/

/-- C8 counterexample: the claim says the slug encoding has a fixed width
of 6 characters for every positive id, but id `16777216 = 16 ^ 6` encodes
to the 7-character slug 1000000. -/
theorem slug_fixed_width_cex :
    0 < 16777216 ∧ slug_from_id 16777216 = "1000000" ∧
      (slug_from_id 16777216).length = 7 := by decide

/-- C8 (amended): for every positive id the slug is the lowercase hex
encoding zero-padded to a minimum width of 6 (exactly 6 whenever
`id < 16 ^ 6`, longer above), id 1 encodes to 000001, and the derivation
round-trips: parsing the slug recovers the id, so re-encoding the parse
reproduces the slug. -/
theorem slug_from_id_roundtrip (n : Nat) (h : 0 < n) :
    id_from_slug (slug_from_id n) = some n ∧
    (id_from_slug (slug_from_id n)).map slug_from_id = some (slug_from_id n) ∧
    slug_from_id 1 = "000001" ∧
    6 ≤ (slug_from_id n).length ∧
    (n < 16 ^ 6 → (slug_from_id n).length = 6) := by
  have hall : (hexChars n).all isHexChar = true := hexCharsGo_all_hex (n + 1) n
  have hne : hexChars n ≠ [] := hexCharsGo_ne_nil n n
  have hid : id_from_slug (slug_from_id n) = some n := by
    unfold id_from_slug
    rw [slug_from_id_data]
    have hcond : (List.replicate (6 - (hexChars n).length) '0' ++ hexChars n ≠ []
        && (List.replicate (6 - (hexChars n).length) '0' ++ hexChars n).all isHexChar) = true := by
      simp only [Bool.and_eq_true, List.all_append, decide_eq_true_eq]
      refine ⟨by simp [hne], ?_, ?_⟩
      · exact replicate_zero_all_hex _
      · exact hall
    rw [if_pos hcond, foldl_replicate_zero, foldl_hexChars]
  have hlen : (slug_from_id n).length =
      (6 - (hexChars n).length) + (hexChars n).length := by
    have : (slug_from_id n).length = (slug_from_id n).data.length := rfl
    rw [this, slug_from_id_data, List.length_append, List.length_replicate]
  refine ⟨hid, ?_, by decide, ?_, ?_⟩
  · rw [hid]; rfl
  · rw [hlen]; omega
  · intro hlt
    have hle : (hexChars n).length ≤ 6 :=
      hexCharsGo_length_le (n + 1) n 6 (Nat.lt_succ_self n) hlt (by omega)
    rw [hlen]; omega

/-- C8 witness: the amended round trip at id 1. -/
theorem slug_from_id_roundtrip_w :
    id_from_slug (slug_from_id 1) = some 1 ∧
    (id_from_slug (slug_from_id 1)).map slug_from_id = some (slug_from_id 1) ∧
    slug_from_id 1 = "000001" ∧
    6 ≤ (slug_from_id 1).length ∧
    (1 < 16 ^ 6 → (slug_from_id 1).length = 6) :=
  slug_from_id_roundtrip 1 (by decide)

/-- C3: queueing a job whose `start_ts` is set raises `AlreadyRunError`
without enqueueing anything and without touching any state; queueing a job
with a null `start_ts` appends its id to the worker queue (and leaves the
job record unchanged). -/
theorem queue_already_run_guard (job : JobRecord) (worker_queue : List Nat) :
    (∀ ts, job.start_ts = some ts →
      queue job worker_queue = Except.error PipelineError.alreadyRun) ∧
    (job.start_ts = none →
      queue job worker_queue = Except.ok (job, worker_queue ++ [job.id])) := by
  constructor
  · intro ts hts
    simp [queue, hts]
  · intro hts
    simp [queue, hts]

/-- C3 witness: the guard at a started job and the enqueue at a fresh one. -/
theorem queue_already_run_guard_w :
    queue ⟨7, some 3⟩ [] = Except.error PipelineError.alreadyRun ∧
    queue ⟨7, none⟩ [5] = Except.ok (⟨7, none⟩, [5, 7]) :=
  ⟨(queue_already_run_guard ⟨7, some 3⟩ []).1 3 rfl,
   (queue_already_run_guard ⟨7, none⟩ [5]).2 rfl⟩

/-- C7: the state table — every internal state in
{queued, running, success, fail, broken} maps per provider exactly as
tabulated, and any other internal state maps to error (github) and
canceled (gitlab). -/
theorem state_map_table (s : String)
    (h : s ∉ ["queued", "running", "success", "fail", "broken"]) :
    ((state_data_for "github" "queued").1 = "pending" ∧
     (state_data_for "github" "running").1 = "pending" ∧
     (state_data_for "github" "success").1 = "success" ∧
     (state_data_for "github" "fail").1 = "failure" ∧
     (state_data_for "github" "broken").1 = "error" ∧
     (state_data_for "gitlab" "queued").1 = "pending" ∧
     (state_data_for "gitlab" "running").1 = "running" ∧
     (state_data_for "gitlab" "success").1 = "success" ∧
     (state_data_for "gitlab" "fail").1 = "failed" ∧
     (state_data_for "gitlab" "broken").1 = "canceled") ∧
    (state_data_for "github" s).1 = "error" ∧
    (state_data_for "gitlab" s).1 = "canceled" := by
  simp only [List.mem_cons, List.not_mem_nil, or_false, not_or] at h
  obtain ⟨h1, h2, h3, h4, h5⟩ := h
  refine ⟨by decide, ?_, ?_⟩ <;>
    simp [state_data_for, STATE_MAP, githubStateMap, gitlabStateMap,
          List.lookup, beq_eq_false_iff_ne.mpr h1,
          beq_eq_false_iff_ne.mpr h2, beq_eq_false_iff_ne.mpr h3,
          beq_eq_false_iff_ne.mpr h4, beq_eq_false_iff_ne.mpr h5]

/-- C7 witness: the table plus the fallbacks at the unknown state
no_such_state. -/
theorem state_map_table_w :
    ((state_data_for "github" "queued").1 = "pending" ∧
     (state_data_for "github" "running").1 = "pending" ∧
     (state_data_for "github" "success").1 = "success" ∧
     (state_data_for "github" "fail").1 = "failure" ∧
     (state_data_for "github" "broken").1 = "error" ∧
     (state_data_for "gitlab" "queued").1 = "pending" ∧
     (state_data_for "gitlab" "running").1 = "running" ∧
     (state_data_for "gitlab" "success").1 = "success" ∧
     (state_data_for "gitlab" "fail").1 = "failed" ∧
     (state_data_for "gitlab" "broken").1 = "canceled") ∧
    (state_data_for "github" "no_such_state").1 = "error" ∧
    (state_data_for "gitlab" "no_such_state").1 = "canceled" :=
  state_map_table "no_such_state" (by decide)

/-- C4: when the job carries a semantic-version tag and a prior image
already exists under the full docker name of the job, the build stage
raises `AlreadyBuiltError` and never issues the build call to the daemon. -/
theorem semantic_tag_build_refused (t dockerFullName projectSlug : String)
    (images : List DockerImage) (img : DockerImage)
    (hsem : is_semantic t = true)
    (hfound : images.find?
      (fun im => im.repoTags.contains dockerFullName) = some img) :
    runnable_docker (some t) dockerFullName projectSlug images =
      Except.error ("Version " ++ t ++ " of " ++ projectSlug ++ " already built") ∧
    ∀ calls, runnable_docker (some t) dockerFullName projectSlug images ≠
      Except.ok calls := by
  have hres : runnable_docker (some t) dockerFullName projectSlug images =
      Except.error ("Version " ++ t ++ " of " ++ projectSlug ++ " already built") := by
    unfold runnable_docker
    rw [hfound]
    simp [hsem]
  refine ⟨hres, ?_⟩
  intro calls
  rw [hres]
  intro hc
  cases hc

/-- C4 witness: an existing image tagged v1.2.3 refuses to rebuild. -/
theorem semantic_tag_build_refused_w :
    runnable_docker (some "v1.2.3") "proj:v1.2.3" "proj"
        [⟨"abc123", ["proj:v1.2.3"]⟩] =
      Except.error ("Version " ++ "v1.2.3" ++ " of " ++ "proj" ++ " already built") ∧
    ∀ calls, runnable_docker (some "v1.2.3") "proj:v1.2.3" "proj"
        [⟨"abc123", ["proj:v1.2.3"]⟩] ≠ Except.ok calls :=
  semantic_tag_build_refused "v1.2.3" "proj:v1.2.3" "proj"
    [⟨"abc123", ["proj:v1.2.3"]⟩] ⟨"abc123", ["proj:v1.2.3"]⟩
    (by decide) (by decide)

/-- C5: when the job carries a non-semantic tag and a prior image exists
under the full docker name, the build stage issues a remove-image call for
that image first and then the build call. -/
theorem nonsemantic_tag_replaced (t dockerFullName projectSlug : String)
    (images : List DockerImage) (img : DockerImage)
    (hns : is_semantic t = false)
    (hfound : images.find?
      (fun im => im.repoTags.contains dockerFullName) = some img) :
    runnable_docker (some t) dockerFullName projectSlug images =
      Except.ok [DockerCall.removeImage img.imageId,
                 DockerCall.build dockerFullName true] := by
  unfold runnable_docker
  rw [hfound]
  simp [hns]

/-- C5 witness: an existing image tagged latest-main is removed, then the
build call is issued. -/
theorem nonsemantic_tag_replaced_w :
    runnable_docker (some "latest-main") "proj:latest-main" "proj"
        [⟨"oldid", ["proj:latest-main"]⟩] =
      Except.ok [DockerCall.removeImage "oldid",
                 DockerCall.build "proj:latest-main" true] :=
  nonsemantic_tag_replaced "latest-main" "proj:latest-main" "proj"
    [⟨"oldid", ["proj:latest-main"]⟩] ⟨"oldid", ["proj:latest-main"]⟩
    (by decide) (by decide)

/-- C6: `Build._stage` appends the stage slug and persists it before the
runnable is invoked, so a runnable that raises leaves the slug in the
persisted sequence exactly once with no returncode ever recorded. -/
theorem stage_append_before_run (st : BuildSlugState) (slug : String)
    (b : Beh) (hnotin : slug ∉ st.build_stage_slugs) :
    ((build_stage st slug b).1.saved_slugs =
       st.build_stage_slugs ++ [slug] ∧
     (build_stage st slug b).1.saved_slugs.count slug = 1 ∧
     (build_stage st slug b).1.build_stage_slugs =
       (build_stage st slug b).1.saved_slugs) ∧
    (b = .exc → (build_stage st slug b).2 = none) := by
  have hcount : (st.build_stage_slugs ++ [slug]).count slug = 1 := by
    rw [List.count_append, List.count_eq_zero.mpr hnotin]
    simp
  cases b with
  | exc => exact ⟨⟨rfl, hcount, rfl⟩, fun _ => rfl⟩
  | ok rc => exact ⟨⟨rfl, hcount, rfl⟩, fun hc => by cases hc⟩

/-- C6 witness: a raising runnable still leaves its slug recorded once. -/
theorem stage_append_before_run_w :
    ((build_stage ⟨["git_prepare"], ["git_prepare"]⟩ "git_info" .exc).1.saved_slugs =
       ["git_prepare"] ++ ["git_info"] ∧
     (build_stage ⟨["git_prepare"], ["git_prepare"]⟩ "git_info" .exc).1.saved_slugs.count
       "git_info" = 1 ∧
     (build_stage ⟨["git_prepare"], ["git_prepare"]⟩ "git_info" .exc).1.build_stage_slugs =
       (build_stage ⟨["git_prepare"], ["git_prepare"]⟩ "git_info" .exc).1.saved_slugs) ∧
    (Beh.exc = Beh.exc →
      (build_stage ⟨["git_prepare"], ["git_prepare"]⟩ "git_info" .exc).2 = none) :=
  stage_append_before_run ⟨["git_prepare"], ["git_prepare"]⟩ "git_info" .exc
    (by decide)

/-- C9 counterexample: the claim says an unparseable X-Hub-Signature
header always makes the function return False, but a header value with no
= separator raises `ValueError` out of the tuple unpacking instead. -/
theorem github_signature_unparseable_cex :
    is_valid_github [("X-Hub-Signature", "sha1")] "0123abc" =
      Except.error PyError.valueError := rfl

/-- C9 (amended): the validator returns True iff the X-Hub-Signature
header is present, splits on = into exactly a hash type and a signature,
the hash type is sha1 case-insensitively, and the signature equals the
HMAC-SHA1 hex digest; a missing header returns False, but a header that
does not split into exactly two parts raises `ValueError` rather than
returning False. -/
theorem github_signature_validation (headers : List (String × String))
    (computedSignature : String) :
    (is_valid_github headers computedSignature = Except.ok true ↔
      ∃ v hashType, headers.lookup "X-Hub-Signature" = some v ∧
        splitOnEqChar v.data = [hashType, computedSignature.data] ∧
        hashType.map Char.toLower = "sha1".data) ∧
    (headers.lookup "X-Hub-Signature" = none →
      is_valid_github headers computedSignature = Except.ok false) ∧
    (∀ v, headers.lookup "X-Hub-Signature" = some v →
      (splitOnEqChar v.data).length ≠ 2 →
      is_valid_github headers computedSignature =
        Except.error PyError.valueError) := by
  rcases hl : headers.lookup "X-Hub-Signature" with - | v
  · refine ⟨?_, fun _ => by simp [is_valid_github, hl], fun v hv => by simp_all⟩
    simp [is_valid_github, hl]
  · refine ⟨?_, fun hc => by simp_all, ?_⟩
    · rcases hsp : splitOnEqChar v.data with - | ⟨a, - | ⟨b, - | ⟨c, rest⟩⟩⟩
      · simp [is_valid_github, hl, hsp]
      · simp [is_valid_github, hl, hsp]
      · by_cases ha : a.map Char.toLower = "sha1".data
        · by_cases hb : b = computedSignature.data
          · subst hb
            simp [is_valid_github, hl, hsp, ha]
          · simp [is_valid_github, hl, hsp, ha, hb]
        · simp [is_valid_github, hl, hsp, ha]
      · simp [is_valid_github, hl, hsp]
    · intro w hw hlen
      injection hw with hw
      subst hw
      rcases hsp : splitOnEqChar v.data with - | ⟨a, - | ⟨b, - | ⟨c, rest⟩⟩⟩
      · simp [is_valid_github, hl, hsp]
      · simp [is_valid_github, hl, hsp]
      · rw [hsp] at hlen
        simp at hlen
      · simp [is_valid_github, hl, hsp]

/-- C9 witness: a well-formed matching header validates, a missing header
is refused, and a separator-free header raises. -/
theorem github_signature_validation_w :
    is_valid_github [("X-Hub-Signature", "sha1=deadbeef")] "deadbeef" =
      Except.ok true ∧
    is_valid_github [] "deadbeef" = Except.ok false ∧
    is_valid_github [("X-Hub-Signature", "nosep")] "deadbeef" =
      Except.error PyError.valueError :=
  ⟨(github_signature_validation [("X-Hub-Signature", "sha1=deadbeef")]
      "deadbeef").1.mpr
      ⟨"sha1=deadbeef", "sha1".data, by decide, by decide, by decide⟩,
   (github_signature_validation [] "deadbeef").2.1 rfl,
   (github_signature_validation [("X-Hub-Signature", "nosep")]
      "deadbeef").2.2 "nosep" rfl (by decide)⟩

/-- C10: the etag from `from_files_etag` depends only on the multiset of
file contents: any two path lists whose content lists are permutations of
one another (in particular, the same files renamed, moved, or listed in a
different order) produce the same etag, because the per-file digests are
sorted before the final hash. -/
theorem etag_content_multiset (sha1 : List Nat → Nat)
    (finalHexdigest : List Nat → String)
    (fps1 fps2 : List (String × List Nat))
    (hperm : (fps1.map Prod.snd).Perm (fps2.map Prod.snd)) :
    from_files_etag sha1 finalHexdigest fps1 =
      from_files_etag sha1 finalHexdigest fps2 := by
  unfold from_files_etag
  dsimp only
  congr 1
  have hp : (fps1.map fun fp => sha1 fp.2).Perm
      (fps2.map fun fp => sha1 fp.2) := by
    have := hperm.map sha1
    simpa [List.map_map, Function.comp] using this
  exact List.eq_of_perm_of_sorted
    ((List.mergeSort_perm _ _).trans (hp.trans (List.mergeSort_perm _ _).symm))
    (List.sorted_mergeSort' _) (List.sorted_mergeSort' _)

/-- C10 witness: two renamed, reordered file lists with equal contents
share an etag. -/
theorem etag_content_multiset_w :
    from_files_etag (fun l => l.foldl (fun a b => 257 * a + b) 1)
      (fun l => String.mk (l.map (fun n => hexChar (n % 16))))
      [("dir1/a", [1, 2, 3]), ("dir2/b", [4])] =
    from_files_etag (fun l => l.foldl (fun a b => 257 * a + b) 1)
      (fun l => String.mk (l.map (fun n => hexChar (n % 16))))
      [("x/c", [4]), ("y/d", [1, 2, 3])] :=
  etag_content_multiset (fun l => l.foldl (fun a b => 257 * a + b) 1)
    (fun l => String.mk (l.map (fun n => hexChar (n % 16))))
    [("dir1/a", [1, 2, 3]), ("dir2/b", [4])]
    [("x/c", [4]), ("y/d", [1, 2, 3])] (by decide)

/-- In the finally clause, as long as the external complete-status stage
does not raise, the cleanup stage always starts (its slug is recorded),
and completes whenever its own runnable does not raise. -/
lemma cleanup_in_finallyPart (inp : JobInput) (st : RunState)
    (h : inp.external_status_complete ≠ Beh.exc) :
    "cleanup" ∈ (runFinallyPart inp st).started ∧
    (inp.cleanup ≠ Beh.exc → "cleanup" ∈ (runFinallyPart inp st).completed) := by
  cases hsc : inp.external_status_complete with
  | exc => exact absurd hsc h
  | ok rc =>
    cases hcl : inp.cleanup with
    | exc =>
      refine ⟨?_, fun hc => absurd rfl hc⟩
      simp [runFinallyPart, runStageS, hsc, hcl]
    | ok rc2 =>
      constructor
      · simp [runFinallyPart, runStageS, hsc, hcl]
      · intro _
        simp [runFinallyPart, runStageS, hsc, hcl]

/-- C2 counterexample: with every stage succeeding except the external
complete-status stage (which raises), cleanup never starts — its slug is
absent from the stage sequence and the post_error pseudo-stage is recorded
instead, while the job result is already success. -/
theorem cleanup_skipped_cex :
    statusExcInput.external_status_complete = Beh.exc ∧
    "cleanup" ∉ (run_now statusExcInput).started ∧
    "cleanup" ∉ (run_now statusExcInput).completed ∧
    "post_error" ∈ (run_now statusExcInput).started ∧
    (run_now statusExcInput).result = some "success" := by decide

/-- C2 (amended): for any stage outcomes — including exceptions — in the
prepare/main/push/fetch stages, the cleanup stage is always started and
its slug recorded in the stage-slug sequence, and it runs to completion
whenever its own runnable does not raise; the only exception is the
external complete-status stage raising first in the finally clause, which
skips cleanup. -/
theorem cleanup_always_recorded (inp : JobInput)
    (h : inp.external_status_complete ≠ Beh.exc) :
    "cleanup" ∈ (run_now inp).started ∧
    (inp.cleanup ≠ Beh.exc → "cleanup" ∈ (run_now inp).completed) := by
  unfold run_now
  exact cleanup_in_finallyPart inp _ h

/-- C2 witness: the baseline run records cleanup as started and completed;
the same holds with an injected docker_test exception. -/
theorem cleanup_always_recorded_w :
    ("cleanup" ∈ (run_now baseInput).started ∧
     "cleanup" ∈ (run_now baseInput).completed) ∧
    "cleanup" ∈ (run_now { baseInput with test := Beh.exc }).started :=
  ⟨⟨(cleanup_always_recorded baseInput (by decide)).1,
    (cleanup_always_recorded baseInput (by decide)).2 (by decide)⟩,
   (cleanup_always_recorded { baseInput with test := Beh.exc } (by decide)).1⟩

/-- C1 counterexample: the push-prep stage exits non-zero on a push
candidate (every other stage succeeds), yet the run result is success, not
broken — `_run_now` calls the push-prep stage with an expected code of
`None`, discarding its status. -/
theorem pushprep_failure_not_broken_cex :
    pushPrepFailInput.push_candidate = true ∧
    pushPrepFailInput.push_prep = Beh.ok 1 ∧
    "docker_push_prep" ∈ (run_now pushPrepFailInput).started ∧
    (run_now pushPrepFailInput).result = some "success" := by decide

/-- C1 (amended): the result classification over the baseline run: a test
stage non-zero exit gives fail; a push stage failure gives broken; a
failure in workdir, git info, git changes, docker login, a utility,
provision, or build gives broken; and an uncaught exception in any stage
of the try body (push-prep included) gives broken — but a push-prep
non-zero exit status is discarded by the orchestrator (see the
counterexample), so push-prep only classifies as broken by raising. -/
theorem result_classification (rc : Int) (h : rc ≠ 0) :
    (run_now baseInput).result = some "success" ∧
    (run_now { baseInput with test := Beh.ok rc }).result = some "fail" ∧
    (run_now { baseInput with push := Beh.ok rc }).result = some "broken" ∧
    (run_now { baseInput with workdir := Beh.ok rc }).result = some "broken" ∧
    (run_now { baseInput with git_info := Beh.ok rc }).result = some "broken" ∧
    (run_now { baseInput with git_changes := Beh.ok rc }).result = some "broken" ∧
    (run_now { baseInput with docker_login := Beh.ok rc }).result = some "broken" ∧
    (run_now { baseInput with utilities := [Beh.ok rc] }).result = some "broken" ∧
    (run_now { baseInput with provision := Beh.ok rc }).result = some "broken" ∧
    (run_now { baseInput with build := Beh.ok rc }).result = some "broken" ∧
    (run_now { baseInput with workdir := Beh.exc }).result = some "broken" ∧
    (run_now { baseInput with git_changes := Beh.exc }).result = some "broken" ∧
    (run_now { baseInput with push_prep := Beh.exc }).result = some "broken" ∧
    (run_now { baseInput with build := Beh.exc }).result = some "broken" ∧
    (run_now { baseInput with test := Beh.exc }).result = some "broken" ∧
    (run_now { baseInput with push := Beh.exc }).result = some "broken" ∧
    (run_now { baseInput with fetch := Beh.exc }).result = some "broken" ∧
    (run_now { baseInput with external_status_start := Beh.exc }).result =
      some "broken" := by
  have hdec : (decide (rc = (0 : Int))) = false := decide_eq_false h
  refine ⟨by decide, ?_, ?_, ?_, ?_, ?_, ?_, ?_, ?_, ?_, by decide, by decide,
          by decide, by decide, by decide, by decide, by decide, by decide⟩ <;>
    simp [run_now, runExceptWrap, runBody, runFinallyPart, runChain,
          runStageS, prepItems, utilItems, baseInput, hdec]

/-- C1 witness: the amended classification at exit code 1. -/
theorem result_classification_w :
    (run_now baseInput).result = some "success" ∧
    (run_now { baseInput with test := Beh.ok 1 }).result = some "fail" ∧
    (run_now { baseInput with push := Beh.ok 1 }).result = some "broken" ∧
    (run_now { baseInput with workdir := Beh.ok 1 }).result = some "broken" ∧
    (run_now { baseInput with git_info := Beh.ok 1 }).result = some "broken" ∧
    (run_now { baseInput with git_changes := Beh.ok 1 }).result = some "broken" ∧
    (run_now { baseInput with docker_login := Beh.ok 1 }).result = some "broken" ∧
    (run_now { baseInput with utilities := [Beh.ok 1] }).result = some "broken" ∧
    (run_now { baseInput with provision := Beh.ok 1 }).result = some "broken" ∧
    (run_now { baseInput with build := Beh.ok 1 }).result = some "broken" ∧
    (run_now { baseInput with workdir := Beh.exc }).result = some "broken" ∧
    (run_now { baseInput with git_changes := Beh.exc }).result = some "broken" ∧
    (run_now { baseInput with push_prep := Beh.exc }).result = some "broken" ∧
    (run_now { baseInput with build := Beh.exc }).result = some "broken" ∧
    (run_now { baseInput with test := Beh.exc }).result = some "broken" ∧
    (run_now { baseInput with push := Beh.exc }).result = some "broken" ∧
    (run_now { baseInput with fetch := Beh.exc }).result = some "broken" ∧
    (run_now { baseInput with external_status_start := Beh.exc }).result =
      some "broken" :=
  result_classification 1 (by decide)

end DockCI
